import Mathlib

/-!
# Guest stay accounts: decision model and HTTP boundary

A shallow embedding of `src/guestStayAccounts/api.ts` from the
`emmett-starter` sample, together with the guest-stay decider it drives.
Only `api.ts` is available as source; the decider module
(`guestStayAccount.ts` / `businessLogic.ts`) and the helper functions from
the `emmett` package are modelled from the specification, as flagged on
each such definition.

Amounts are modelled as exact rationals (`Rat`); the spec treats amounts
as positive decimal values with no rounding concerns. Timestamps are
modelled as natural numbers of milliseconds since the Unix epoch, and a
UTC calendar day is the quotient by `msPerDay`.
-/

namespace GuestStay

/-- Modelled from the spec: the event type of §3 (DATA MODEL). One of
`GuestCheckedIn`, `ChargeRecorded`, `PaymentRecorded`, `GuestCheckedOut`,
`GuestCheckoutFailed`, with the payload fields listed there. The defining
module `guestStayAccount.ts` is not part of the provided sources. -/
inductive GuestStayAccountEvent where
  | guestCheckedIn (guestId roomId : String) (checkInDate : Nat)
  | chargeRecorded (guestStayAccountId : String) (amount : Rat) (recordedAt : Nat)
  | paymentRecorded (guestStayAccountId : String) (amount : Rat) (recordedAt : Nat)
  | guestCheckedOut (guestStayAccountId : String) (checkedOutAt : Nat)
  | guestCheckoutFailed (guestStayAccountId : String) (reason : String) (attemptedAt : Nat)
deriving DecidableEq, Repr

/-- Modelled from the spec: the tagged-union state of §3,
`NotOpened | Opened {balance} | CheckedOut`. -/
inductive GuestStayAccount where
  | notOpened
  | opened (balance : Rat)
  | checkedOut
deriving DecidableEq, Repr

/-- Modelled from the spec: `initialState()` of the decider (§2). -/
def initialState : GuestStayAccount := .notOpened

/-- Modelled from the spec: `evolve(state, event)` of §4.1, total and pure.
The five listed transitions; any other combination is a caller replay bug
and leaves the state as it was (no transition matches). -/
def evolve (state : GuestStayAccount) (event : GuestStayAccountEvent) : GuestStayAccount :=
  match state, event with
  | .notOpened, .guestCheckedIn _ _ _ => .opened 0
  | .opened b, .chargeRecorded _ amount _ => .opened (b + amount)
  | .opened b, .paymentRecorded _ amount _ => .opened (b - amount)
  | .opened _, .guestCheckedOut _ _ => .checkedOut
  | .opened b, .guestCheckoutFailed _ _ _ => .opened b
  | s, _ => s

/-- The JS `status` discriminant field of the state union: `Opened` and
`CheckedOut` carry a `status` string, `NotOpened` has no fields (§3), so
reading `.status` on it yields `undefined`, modelled as `none`. -/
def statusOf : GuestStayAccount → Option String
  | .notOpened => none
  | .opened _ => some "Opened"
  | .checkedOut => some "CheckedOut"

/-- The JS `type` discriminant of an event, as inspected by the checkout
route (`result.type === 'GuestCheckedOut'`, api.ts line 165). -/
def eventType : GuestStayAccountEvent → String
  | .guestCheckedIn _ _ _ => "GuestCheckedIn"
  | .chargeRecorded _ _ _ => "ChargeRecorded"
  | .paymentRecorded _ _ _ => "PaymentRecorded"
  | .guestCheckedOut _ _ => "GuestCheckedOut"
  | .guestCheckoutFailed _ _ _ => "GuestCheckoutFailed"

/-- Modelled from the spec: the precondition-error taxonomy of §7
(`NotOpen`, `AlreadyOpened`, `AlreadyClosed`), raised synchronously by the
decision functions. -/
inductive PreconditionError where
  | notOpen
  | alreadyOpened
  | alreadyClosed
deriving DecidableEq, Repr

/-- Modelled from the spec: `checkIn(command, state)` of §4.2. Succeeds only
from `NotOpened`, producing a `GuestCheckedIn` event; from `Opened` or
`CheckedOut` it fails with an AlreadyExists-class error (`AlreadyOpened`
resp. `AlreadyClosed`) and produces no event. `businessLogic.ts` is not
part of the provided sources. -/
def checkIn (guestId roomId : String) (now : Nat) :
    GuestStayAccount → Except PreconditionError GuestStayAccountEvent
  | .notOpened => .ok (.guestCheckedIn guestId roomId now)
  | .opened _ => .error .alreadyOpened
  | .checkedOut => .error .alreadyClosed

/-- Modelled from the spec: `recordCharge(command, state)` of §4.3. Requires
an `Opened` state; otherwise fails with `NotOpen` and produces no event. -/
def recordCharge (guestStayAccountId : String) (amount : Rat) (now : Nat) :
    GuestStayAccount → Except PreconditionError GuestStayAccountEvent
  | .opened _ => .ok (.chargeRecorded guestStayAccountId amount now)
  | _ => .error .notOpen

/-- Modelled from the spec: `recordPayment(command, state)` of §4.3. Requires
an `Opened` state; otherwise fails with `NotOpen` and produces no event. -/
def recordPayment (guestStayAccountId : String) (amount : Rat) (now : Nat) :
    GuestStayAccount → Except PreconditionError GuestStayAccountEvent
  | .opened _ => .ok (.paymentRecorded guestStayAccountId amount now)
  | _ => .error .notOpen

/-- Modelled from the spec: `checkOut(command, state)` of §4.4. Requires an
`Opened` state (otherwise `NotOpen`, no event); on zero balance it produces
`GuestCheckedOut`, on nonzero balance `GuestCheckoutFailed` with reason
"balance not settled" — a recorded outcome fact, not an error. -/
def checkOut (guestStayAccountId : String) (now : Nat) :
    GuestStayAccount → Except PreconditionError GuestStayAccountEvent
  | .opened b =>
      if b = 0 then .ok (.guestCheckedOut guestStayAccountId now)
      else .ok (.guestCheckoutFailed guestStayAccountId "balance not settled" now)
  | _ => .error .notOpen

/-! ## UTC calendar days

The `emmett` package helpers `formatDateToUtcYYYYMMDD` and
`parseDateFromUtcYYYYMMDD` are external to this repository; they are
modelled from spec §6: dates are valid calendar dates in a fixed
`YYYY-MM-DD` form, taken at UTC. A timestamp is `Nat` milliseconds since
the Unix epoch; its UTC day is the quotient by `msPerDay`. -/

def msPerDay : Nat := 86400000

def isLeapYear (y : Nat) : Bool :=
  (y % 4 == 0 && y % 100 != 0) || y % 400 == 0

def yearLength (y : Nat) : Nat := if isLeapYear y then 366 else 365

theorem yearLength_pos (y : Nat) : 0 < yearLength y := by
  unfold yearLength; split <;> omega

def daysInMonth (y m : Nat) : Nat :=
  if m = 2 then (if isLeapYear y then 29 else 28)
  else if m = 4 ∨ m = 6 ∨ m = 9 ∨ m = 11 then 30
  else 31

/-- Number of days from 1970-01-01 (UTC) to the civil date `y-m-d`
(for `y ≥ 1970`, `1 ≤ m ≤ 12`, `1 ≤ d`). -/
def daysFromCivil (y m d : Nat) : Nat :=
  ((List.range (y - 1970)).map (fun i => yearLength (1970 + i))).sum +
    ((List.range (m - 1)).map (fun i => daysInMonth y (i + 1))).sum +
    (d - 1)

/-- Walk forward one year at a time from year `y`, peeling whole years off
the day count; returns the year reached and the day offset within it.
Structural recursion on an explicit `fuel` bound keeps the definition
kernel-reducible; every recursive step peels at least 365 days, so any
`fuel ≥ days / 365` is enough. -/
def yearFromDays (fuel y days : Nat) : Nat × Nat :=
  match fuel with
  | 0 => (y, days)
  | fuel + 1 =>
    if days < yearLength y then (y, days)
    else yearFromDays fuel (y + 1) (days - yearLength y)

/-- Walk forward one month at a time from month `m` of year `y`, with the
same fuel pattern (11 steps always suffice). -/
def monthFromDays (fuel y m days : Nat) : Nat × Nat :=
  match fuel with
  | 0 => (m, days)
  | fuel + 1 =>
    if days < daysInMonth y m then (m, days)
    else monthFromDays fuel y (m + 1) (days - daysInMonth y m)

/-- The civil date `(y, m, d)` of a UTC day count since 1970-01-01. -/
def civilFromDays (days : Nat) : Nat × Nat × Nat :=
  let yd := yearFromDays days 1970 days
  let md := monthFromDays 11 yd.1 1 yd.2
  (yd.1, md.1, md.2 + 1)

def pad2 (n : Nat) : String :=
  if n < 10 then "0" ++ Nat.repr n else Nat.repr n

def pad4 (n : Nat) : String :=
  if n < 10 then "000" ++ Nat.repr n
  else if n < 100 then "00" ++ Nat.repr n
  else if n < 1000 then "0" ++ Nat.repr n
  else Nat.repr n

/-- Modelled from the spec: `formatDateToUtcYYYYMMDD` from the `emmett`
package — renders the UTC calendar day of a timestamp as `YYYY-MM-DD`,
discarding the time-of-day component. -/
def formatDateToUtcYYYYMMDD (t : Nat) : String :=
  let c := civilFromDays (t / msPerDay)
  pad4 c.1 ++ "-" ++ pad2 c.2.1 ++ "-" ++ pad2 c.2.2

def digitVal (c : Char) : Nat := c.toNat - 48

/-- Modelled from the spec: validation-error taxonomy at the boundary
(§7): empty identifier, non-positive amount, unparseable date. -/
inductive ValidationError where
  | emptyString
  | notPositiveNumber
  | invalidDate
deriving DecidableEq, Repr

/-- Modelled from the spec: `parseDateFromUtcYYYYMMDD` from the `emmett`
package — accepts exactly the strings of the fixed form `YYYY-MM-DD` that
denote a valid calendar date, and yields the timestamp of that day's UTC
midnight. -/
def parseDateFromUtcYYYYMMDD (s : String) : Except ValidationError Nat :=
  match s.data with
  | [y1, y2, y3, y4, h1, m1, m2, h2, d1, d2] =>
    if y1.isDigit && y2.isDigit && y3.isDigit && y4.isDigit && h1 == '-' &&
        m1.isDigit && m2.isDigit && h2 == '-' && d1.isDigit && d2.isDigit then
      let y := 1000 * digitVal y1 + 100 * digitVal y2 + 10 * digitVal y3 + digitVal y4
      let m := 10 * digitVal m1 + digitVal m2
      let d := 10 * digitVal d1 + digitVal d2
      if 1970 ≤ y && 1 ≤ m && m ≤ 12 && 1 ≤ d && d ≤ daysInMonth y m then
        .ok (daysFromCivil y m d * msPerDay)
      else .error .invalidDate
    else .error .invalidDate
  | _ => .error .invalidDate

/-- Modelled from the spec: `toGuestStayAccountId` from
`guestStayAccount.ts` (not part of the provided sources) — §3: a composite
deterministic identifier derived from `(guestId, roomId, stayStartDate)`,
where the stay start date is the calendar day with no time component,
computed by the same formula wherever needed. -/
def toGuestStayAccountId (guestId roomId : String) (date : Nat) : String :=
  "guest_stay_account-" ++ guestId ++ ":" ++ roomId ++ ":" ++
    formatDateToUtcYYYYMMDD date

/-- Modelled from the spec: `assertNotEmptyString` from the `emmett`
package — identifiers must be non-empty strings (§6); a missing route
parameter (`undefined`, modelled as `none`) also fails. -/
def assertNotEmptyString : Option String → Except ValidationError String
  | some s => if s = "" then .error .emptyString else .ok s
  | none => .error .emptyString

/-- Modelled from the spec: `assertPositiveNumber` from the `emmett`
package — amounts must be strictly positive numbers (§6); a missing body
field (`Number(undefined)` is `NaN`) also fails. -/
def assertPositiveNumber : Option Rat → Except ValidationError Rat
  | some a => if 0 < a then .ok a else .error .notPositiveNumber
  | none => .error .notPositiveNumber

/-! ## HTTP boundary (`api.ts`)

The routes of `guestStayAccountsApi` in `src/guestStayAccounts/api.ts`,
embedded as pure functions. The event store is a map from stream id to its
ordered event list; `handleCmd` models `handle = CommandHandler(evolve,
initialState)`: rebuild the state by folding `evolve` over the stream from
`initialState` and run the decision function on it (spec §2 control flow;
the `CommandHandler` itself comes from the external `emmett` package).
A route's result records which streams the command handler was invoked on,
which events were appended, and the response — a thrown validation or
precondition error short-circuits as `Except.error`. -/

/-- HTTP responses produced by the routes of `api.ts`. -/
inductive HttpResponse where
  | created (url : String)
  | noContent
  | forbidden
  | notFound
  | okBody (body : GuestStayAccount)
deriving DecidableEq, Repr

/-- An error thrown while serving a request: a boundary validation error or
a decider precondition error (spec §7); the surrounding `on(...)` wrapper
turns it into an error response outside this file's scope. -/
inductive ApiError where
  | validation (e : ValidationError)
  | precondition (e : PreconditionError)
deriving DecidableEq, Repr

deriving instance DecidableEq for Except

/-- Observable outcome of serving one request. -/
structure RouteResult where
  /-- Stream ids the command handler (`handle`) was invoked on. -/
  handleCalls : List String
  /-- `(streamId, event)` pairs appended to the store. -/
  appended : List (String × GuestStayAccountEvent)
  /-- The response, or the error thrown. -/
  response : Except ApiError HttpResponse
deriving DecidableEq, Repr

/-- Fold the stream into the current state (replay from `initialState`). -/
def rebuildState (stream : List GuestStayAccountEvent) : GuestStayAccount :=
  stream.foldl evolve initialState

/-- Modelled from the spec: one decision cycle of
`CommandHandler(evolve, initialState)` (external `emmett` package; §2):
rebuild state from the stream, run the decision function, return the event
it produced (to be appended) or propagate its error. -/
def handleCmd (stream : List GuestStayAccountEvent)
    (decider : GuestStayAccount → Except PreconditionError GuestStayAccountEvent) :
    Except PreconditionError GuestStayAccountEvent :=
  decider (rebuildState stream)

/-- `parseGuestStayAccountId` of api.ts lines 196-209: assert the three
route parameters and derive the account id, parsing the `checkInDate`
path parameter from its `YYYY-MM-DD` form. -/
def parseGuestStayAccountId (guestId? roomId? checkInDate? : Option String) :
    Except ValidationError String :=
  match assertNotEmptyString guestId? with
  | .error e => .error e
  | .ok guestId =>
    match assertNotEmptyString roomId? with
    | .error e => .error e
    | .ok roomId =>
      match assertNotEmptyString checkInDate? with
      | .error e => .error e
      | .ok dateString =>
        match parseDateFromUtcYYYYMMDD dateString with
        | .error e => .error e
        | .ok date => .ok (toGuestStayAccountId guestId roomId date)

/-- The check-in route (api.ts lines 71-100): POST
`/guests/:guestId/stays/:roomId`. Validates the two ids, consults the
existence oracle with the current time, returns `Forbidden` when it says
no, otherwise runs `checkIn` through the command handler and answers
`Created` with the period URL for the current UTC day. -/
def checkInRoute (store : String → List GuestStayAccountEvent)
    (doesGuestStayExist : String → String → Nat → Bool) (now : Nat)
    (guestId? roomId? : Option String) : RouteResult :=
  match assertNotEmptyString guestId? with
  | .error e => ⟨[], [], .error (.validation e)⟩
  | .ok guestId =>
    match assertNotEmptyString roomId? with
    | .error e => ⟨[], [], .error (.validation e)⟩
    | .ok roomId =>
      if !doesGuestStayExist guestId roomId now then ⟨[], [], .ok .forbidden⟩
      else
        let guestStayAccountId := toGuestStayAccountId guestId roomId now
        match handleCmd (store guestStayAccountId) (checkIn guestId roomId now) with
        | .error e => ⟨[guestStayAccountId], [], .error (.precondition e)⟩
        | .ok ev =>
          ⟨[guestStayAccountId], [(guestStayAccountId, ev)],
            .ok (.created ("/guests/" ++ guestId ++ "/stays/" ++ roomId ++
              "/periods/" ++ formatDateToUtcYYYYMMDD now))⟩

/-- The record-charge route (api.ts lines 103-123): POST
`.../periods/:checkInDate/charges`. Parses the account id, validates the
amount, runs `recordCharge` through the command handler, answers
`NoContent`. -/
def recordChargeRoute (store : String → List GuestStayAccountEvent) (now : Nat)
    (guestId? roomId? checkInDate? : Option String) (amount? : Option Rat) :
    RouteResult :=
  match parseGuestStayAccountId guestId? roomId? checkInDate? with
  | .error e => ⟨[], [], .error (.validation e)⟩
  | .ok guestStayAccountId =>
    match assertPositiveNumber amount? with
    | .error e => ⟨[], [], .error (.validation e)⟩
    | .ok amount =>
      match handleCmd (store guestStayAccountId)
          (recordCharge guestStayAccountId amount now) with
      | .error e => ⟨[guestStayAccountId], [], .error (.precondition e)⟩
      | .ok ev => ⟨[guestStayAccountId], [(guestStayAccountId, ev)], .ok .noContent⟩

/-- The record-payment route (api.ts lines 126-146): POST
`.../periods/:checkInDate/payments`, symmetric to the charge route. -/
def recordPaymentRoute (store : String → List GuestStayAccountEvent) (now : Nat)
    (guestId? roomId? checkInDate? : Option String) (amount? : Option Rat) :
    RouteResult :=
  match parseGuestStayAccountId guestId? roomId? checkInDate? with
  | .error e => ⟨[], [], .error (.validation e)⟩
  | .ok guestStayAccountId =>
    match assertPositiveNumber amount? with
    | .error e => ⟨[], [], .error (.validation e)⟩
    | .ok amount =>
      match handleCmd (store guestStayAccountId)
          (recordPayment guestStayAccountId amount now) with
      | .error e => ⟨[guestStayAccountId], [], .error (.precondition e)⟩
      | .ok ev => ⟨[guestStayAccountId], [(guestStayAccountId, ev)], .ok .noContent⟩

/-- The checkout route (api.ts lines 149-172): DELETE
`.../periods/:checkInDate`. Parses the account id, runs `checkOut` through
the command handler, remembers whether the returned event's type was
`GuestCheckedOut` (`wasCheckedOut`), and answers `NoContent` on that flag,
`Forbidden` otherwise. -/
def checkOutRoute (store : String → List GuestStayAccountEvent) (now : Nat)
    (guestId? roomId? checkInDate? : Option String) : RouteResult :=
  match parseGuestStayAccountId guestId? roomId? checkInDate? with
  | .error e => ⟨[], [], .error (.validation e)⟩
  | .ok guestStayAccountId =>
    match handleCmd (store guestStayAccountId)
        (checkOut guestStayAccountId now) with
    | .error e => ⟨[guestStayAccountId], [], .error (.precondition e)⟩
    | .ok ev =>
      ⟨[guestStayAccountId], [(guestStayAccountId, ev)],
        .ok (if eventType ev = "GuestCheckedOut" then .noContent else .forbidden)⟩

/-- Modelled from the spec: `eventStore.aggregateStream` (external `emmett`
package; §6 `readAll` plus the §2 fold) as used by the GET route — `null`
when the stream does not exist (no events), otherwise the replayed
state. -/
def aggregateStream (stream : List GuestStayAccountEvent) : Option GuestStayAccount :=
  if stream.isEmpty then none else some (rebuildState stream)

/-- The account-details route (api.ts lines 175-193): GET
`.../periods/:checkInDate`. Parses the account id, aggregates the stream;
`NotFound` when the result is null or the state's `status` is not
`'Opened'`, otherwise `OK` with the state as body. -/
def getRoute (store : String → List GuestStayAccountEvent)
    (guestId? roomId? checkInDate? : Option String) : RouteResult :=
  match parseGuestStayAccountId guestId? roomId? checkInDate? with
  | .error e => ⟨[], [], .error (.validation e)⟩
  | .ok guestStayAccountId =>
    match aggregateStream (store guestStayAccountId) with
    | none => ⟨[], [], .ok .notFound⟩
    | some state =>
      if statusOf state ≠ some "Opened" then ⟨[], [], .ok .notFound⟩
      else ⟨[], [], .ok (.okBody state)⟩

/-! ## Balance bookkeeping helpers -/

/-- Total of the amounts of the `ChargeRecorded` events of a list. -/
def chargeSum : List GuestStayAccountEvent → Rat
  | [] => 0
  | .chargeRecorded _ amount _ :: es => amount + chargeSum es
  | _ :: es => chargeSum es

/-- Total of the amounts of the `PaymentRecorded` events of a list. -/
def paymentSum : List GuestStayAccountEvent → Rat
  | [] => 0
  | .paymentRecorded _ amount _ :: es => amount + paymentSum es
  | _ :: es => paymentSum es

/-- Whether an event is a charge or a payment. -/
def isChargeOrPayment : GuestStayAccountEvent → Bool
  | .chargeRecorded _ _ _ => true
  | .paymentRecorded _ _ _ => true
  | _ => false

/-- Folding any list of charge/payment events over `evolve` from an opened
balance `b` lands on `b + charges − payments`. -/
theorem foldl_evolve_charges_payments (es : List GuestStayAccountEvent) (b : Rat)
    (h : es.all isChargeOrPayment = true) :
    es.foldl evolve (.opened b) = .opened (b + chargeSum es - paymentSum es) := by
  induction es generalizing b with
  | nil => simp [chargeSum, paymentSum]
  | cons e es ih =>
    rw [List.all_cons, Bool.and_eq_true] at h
    obtain ⟨he, hes⟩ := h
    cases e with
    | chargeRecorded aid amount t =>
      rw [List.foldl_cons]
      show es.foldl evolve (.opened (b + amount)) = _
      rw [ih _ hes]
      congr 1
      simp [chargeSum, paymentSum]
      ring
    | paymentRecorded aid amount t =>
      rw [List.foldl_cons]
      show es.foldl evolve (.opened (b - amount)) = _
      rw [ih _ hes]
      congr 1
      simp [chargeSum, paymentSum]
      ring
    | guestCheckedIn g r t => simp [isChargeOrPayment] at he
    | guestCheckedOut aid t => simp [isChargeOrPayment] at he
    | guestCheckoutFailed aid reason t => simp [isChargeOrPayment] at he

/-! ## Claims -/

/-- C1: for every `Opened` state, `checkOut` produces `GuestCheckedOut` iff
the balance is exactly zero at decision time; for every nonzero balance it
instead produces `GuestCheckoutFailed` with reason "balance not settled",
and the balance after evolving that event is unchanged. -/
theorem checkOut_succeeds_iff_zero_balance (aid : String) (now : Nat) (b : Rat) :
    (checkOut aid now (.opened b) = .ok (.guestCheckedOut aid now) ↔ b = 0) ∧
    (b ≠ 0 →
      checkOut aid now (.opened b) =
        .ok (.guestCheckoutFailed aid "balance not settled" now) ∧
      evolve (.opened b) (.guestCheckoutFailed aid "balance not settled" now) =
        .opened b) := by
  by_cases hb : b = 0 <;> simp [checkOut, evolve, hb]

/-- Witness for C1 at balance 1: the checkout is rejected as a recorded
fact and the balance is untouched. -/
theorem checkOut_succeeds_iff_zero_balance_witness :
    (1 : Rat) ≠ 0 ∧
    (checkOut "a" 5 (.opened 1) =
        .ok (.guestCheckoutFailed "a" "balance not settled" 5) ∧
      evolve (.opened 1) (.guestCheckoutFailed "a" "balance not settled" 5) =
        .opened 1) :=
  ⟨by norm_num, (checkOut_succeeds_iff_zero_balance "a" 5 1).2 (by norm_num)⟩

/-- C2: `evolve` is total and pure (a total Lean function on all
state/event pairs) and implements exactly the transition table:
`NotOpened + GuestCheckedIn → Opened 0`;
`Opened b + ChargeRecorded a → Opened (b + a)`;
`Opened b + PaymentRecorded a → Opened (b − a)`;
`Opened + GuestCheckedOut → CheckedOut`;
`Opened + GuestCheckoutFailed → Opened` unchanged. -/
theorem evolve_transition_table :
    (∀ g r t, evolve .notOpened (.guestCheckedIn g r t) = .opened 0) ∧
    (∀ b aid a t, evolve (.opened b) (.chargeRecorded aid a t) = .opened (b + a)) ∧
    (∀ b aid a t, evolve (.opened b) (.paymentRecorded aid a t) = .opened (b - a)) ∧
    (∀ b aid t, evolve (.opened b) (.guestCheckedOut aid t) = .checkedOut) ∧
    (∀ b aid reason t,
      evolve (.opened b) (.guestCheckoutFailed aid reason t) = .opened b) :=
  ⟨fun _ _ _ => rfl, fun _ _ _ _ => rfl, fun _ _ _ _ => rfl,
    fun _ _ _ => rfl, fun _ _ _ _ => rfl⟩

/-- C5: `recordCharge`, `recordPayment` and `checkOut` against a
`NotOpened` or `CheckedOut` state fail with the `NotOpen` precondition
error and produce no event; `CheckedOut` is terminal — every command
invoked from it (check-in included) errors, so none ever produces an
event. -/
theorem commands_rejected_when_not_open :
    (∀ aid a t, recordCharge aid a t .notOpened = .error .notOpen) ∧
    (∀ aid a t, recordCharge aid a t .checkedOut = .error .notOpen) ∧
    (∀ aid a t, recordPayment aid a t .notOpened = .error .notOpen) ∧
    (∀ aid a t, recordPayment aid a t .checkedOut = .error .notOpen) ∧
    (∀ aid t, checkOut aid t .notOpened = .error .notOpen) ∧
    (∀ aid t, checkOut aid t .checkedOut = .error .notOpen) ∧
    (∀ g r t, checkIn g r t .checkedOut = .error .alreadyClosed) :=
  ⟨fun _ _ _ => rfl, fun _ _ _ => rfl, fun _ _ _ => rfl, fun _ _ _ => rfl,
    fun _ _ => rfl, fun _ _ => rfl, fun _ _ _ => rfl⟩

/-- C9: `checkIn` against a state that is already `Opened` or `CheckedOut`
fails with an AlreadyExists-class precondition error (`AlreadyOpened`
resp. `AlreadyClosed`) and produces no event: the duplicate check-in is
rejected by the decider itself, not silently ignored. -/
theorem checkIn_rejects_duplicates :
    (∀ g r t b, checkIn g r t (.opened b) = .error .alreadyOpened) ∧
    (∀ g r t, checkIn g r t .checkedOut = .error .alreadyClosed) :=
  ⟨fun _ _ _ _ => rfl, fun _ _ _ => rfl⟩

/-- C6: folding any interleaving of charge events `c_1..c_n` and payment
events `p_1..p_m` over `evolve` from `Opened 0` yields the balance
`sum(c_i) − sum(p_j)`, whatever the order. -/
theorem balance_is_charges_minus_payments (es : List GuestStayAccountEvent)
    (h : es.all isChargeOrPayment = true) :
    es.foldl evolve (.opened 0) = .opened (chargeSum es - paymentSum es) := by
  rw [foldl_evolve_charges_payments es 0 h]
  congr 1
  ring

/-- Witness for C6 on the interleaving charge 3, payment 1, charge 2. -/
theorem balance_is_charges_minus_payments_witness :
    ([GuestStayAccountEvent.chargeRecorded "a" 3 0,
        .paymentRecorded "a" 1 1,
        .chargeRecorded "a" 2 2].all isChargeOrPayment = true) ∧
    ([GuestStayAccountEvent.chargeRecorded "a" 3 0,
        .paymentRecorded "a" 1 1,
        .chargeRecorded "a" 2 2].foldl evolve (.opened 0) =
      .opened (chargeSum [.chargeRecorded "a" 3 0, .paymentRecorded "a" 1 1,
          .chargeRecorded "a" 2 2] -
        paymentSum [.chargeRecorded "a" 3 0, .paymentRecorded "a" 1 1,
          .chargeRecorded "a" 2 2])) :=
  ⟨by decide, balance_is_charges_minus_payments _ (by decide)⟩

/-- C7: the account identifier is the same deterministic function
`toGuestStayAccountId` of guest, room and calendar day wherever it is
needed: the id the later routes derive by parsing a `YYYY-MM-DD` path
parameter (`parseGuestStayAccountId`) equals the id the check-in route
computes from the full current timestamp `t`, whenever the two reference
the same UTC day. -/
theorem accountId_same_for_same_day (g r : String) (t ts : Nat) (s : String)
    (hg : g ≠ "") (hr : r ≠ "")
    (hparse : parseDateFromUtcYYYYMMDD s = .ok ts)
    (hday : t / msPerDay = ts / msPerDay) :
    parseGuestStayAccountId (some g) (some r) (some s) =
      .ok (toGuestStayAccountId g r t) := by
  have hs : s ≠ "" := by
    intro hempty
    rw [hempty] at hparse
    have hcontra : (Except.error ValidationError.invalidDate :
        Except ValidationError Nat) = .ok ts := hparse
    exact Except.noConfusion hcontra
  simp only [parseGuestStayAccountId, assertNotEmptyString, if_neg hg,
    if_neg hr, if_neg hs, hparse]
  unfold toGuestStayAccountId formatDateToUtcYYYYMMDD
  rw [hday]

/-- Witness for C7: a mid-day timestamp of 1970-01-01 and the parsed path
parameter "1970-01-01" resolve to one and the same account id. -/
theorem accountId_same_for_same_day_witness :
    "g" ≠ "" ∧ "r" ≠ "" ∧
    parseDateFromUtcYYYYMMDD "1970-01-01" = .ok 0 ∧
    12345 / msPerDay = 0 / msPerDay ∧
    parseGuestStayAccountId (some "g") (some "r") (some "1970-01-01") =
      .ok (toGuestStayAccountId "g" "r" 12345) :=
  ⟨by decide, by decide, by decide, by decide,
    accountId_same_for_same_day "g" "r" 12345 0 "1970-01-01"
      (by decide) (by decide) (by decide) (by decide)⟩

/-- C3: the checkout route's outcome is decided solely by the type of the
event `checkOut` returned — `NoContent` exactly when that type is
`GuestCheckedOut`, `Forbidden` otherwise; the `GuestCheckoutFailed` case
still appends the returned event and is signalled by its type, not through
an error channel. -/
theorem checkOutRoute_decided_by_event_type
    (store : String → List GuestStayAccountEvent) (now : Nat)
    (guestId? roomId? checkInDate? : Option String)
    (aid : String) (ev : GuestStayAccountEvent)
    (hid : parseGuestStayAccountId guestId? roomId? checkInDate? = .ok aid)
    (hev : handleCmd (store aid) (checkOut aid now) = .ok ev) :
    (checkOutRoute store now guestId? roomId? checkInDate? =
        ⟨[aid], [(aid, ev)], .ok .noContent⟩ ↔
      eventType ev = "GuestCheckedOut") ∧
    (eventType ev ≠ "GuestCheckedOut" →
      checkOutRoute store now guestId? roomId? checkInDate? =
        ⟨[aid], [(aid, ev)], .ok .forbidden⟩) := by
  by_cases h : eventType ev = "GuestCheckedOut" <;>
    simp [checkOutRoute, hid, hev, h]

/-- Witness for C3 on a settled account: the returned event is
`GuestCheckedOut` and the route answers `NoContent`. -/
theorem checkOutRoute_decided_by_event_type_witness :
    (checkOutRoute (fun _ => [.guestCheckedIn "g" "r" 0]) 7
          (some "g") (some "r") (some "1970-01-01") =
        ⟨["guest_stay_account-g:r:1970-01-01"],
          [("guest_stay_account-g:r:1970-01-01",
            .guestCheckedOut "guest_stay_account-g:r:1970-01-01" 7)],
          .ok .noContent⟩ ↔
      eventType (.guestCheckedOut "guest_stay_account-g:r:1970-01-01" 7) =
        "GuestCheckedOut") ∧
    (eventType
        (GuestStayAccountEvent.guestCheckedOut
          "guest_stay_account-g:r:1970-01-01" 7) ≠ "GuestCheckedOut" →
      checkOutRoute (fun _ => [.guestCheckedIn "g" "r" 0]) 7
          (some "g") (some "r") (some "1970-01-01") =
        ⟨["guest_stay_account-g:r:1970-01-01"],
          [("guest_stay_account-g:r:1970-01-01",
            .guestCheckedOut "guest_stay_account-g:r:1970-01-01" 7)],
          .ok .forbidden⟩) :=
  checkOutRoute_decided_by_event_type (fun _ => [.guestCheckedIn "g" "r" 0]) 7
    (some "g") (some "r") (some "1970-01-01")
    "guest_stay_account-g:r:1970-01-01"
    (.guestCheckedOut "guest_stay_account-g:r:1970-01-01" 7)
    (by decide) (by decide)

/-- C4: the check-in route consults the existence oracle before invoking
the command handler; when the oracle answers `false` it answers
`Forbidden` with the handler never invoked and nothing appended, so no
`GuestCheckedIn` event is produced for a guest/room/day the oracle
rejects. -/
theorem checkIn_blocked_by_oracle
    (store : String → List GuestStayAccountEvent)
    (oracle : String → String → Nat → Bool) (now : Nat)
    (guestId? roomId? : Option String) (g r : String)
    (hg : assertNotEmptyString guestId? = .ok g)
    (hr : assertNotEmptyString roomId? = .ok r)
    (hex : oracle g r now = false) :
    checkInRoute store oracle now guestId? roomId? = ⟨[], [], .ok .forbidden⟩ := by
  simp [checkInRoute, hg, hr, hex]

/-- Witness for C4 with an oracle that always denies. -/
theorem checkIn_blocked_by_oracle_witness :
    assertNotEmptyString (some "g") = .ok "g" ∧
    assertNotEmptyString (some "r") = .ok "r" ∧
    (fun _ _ _ => false : String → String → Nat → Bool) "g" "r" 0 = false ∧
    checkInRoute (fun _ => []) (fun _ _ _ => false) 0 (some "g") (some "r") =
      ⟨[], [], .ok .forbidden⟩ :=
  ⟨by decide, by decide, by decide,
    checkIn_blocked_by_oracle (fun _ => []) (fun _ _ _ => false) 0
      (some "g") (some "r") "g" "r" (by decide) (by decide) (by decide)⟩

/-- C8: validation happens at the boundary before any decision function
runs: identifiers must be non-empty (`assertNotEmptyString`), amounts
strictly positive (`assertPositiveNumber`), the check-in date a valid
`YYYY-MM-DD` date (inside `parseGuestStayAccountId`); on every command
route, a failing assertion makes the route throw a validation error with
the command handler never invoked and nothing appended. -/
theorem validation_precedes_command_handler
    (store : String → List GuestStayAccountEvent)
    (oracle : String → String → Nat → Bool) (now : Nat)
    (guestId? roomId? checkInDate? : Option String) (amount? : Option Rat) :
    (∀ s, (assertNotEmptyString (some s)).isOk = true ↔ s ≠ "") ∧
    (∀ a, (assertPositiveNumber (some a)).isOk = true ↔ 0 < a) ∧
    (¬((assertNotEmptyString guestId?).isOk = true ∧
        (assertNotEmptyString roomId?).isOk = true) →
      ∃ e, checkInRoute store oracle now guestId? roomId? =
        ⟨[], [], .error (.validation e)⟩) ∧
    (¬((parseGuestStayAccountId guestId? roomId? checkInDate?).isOk = true ∧
        (assertPositiveNumber amount?).isOk = true) →
      ∃ e, recordChargeRoute store now guestId? roomId? checkInDate? amount? =
        ⟨[], [], .error (.validation e)⟩) ∧
    (¬((parseGuestStayAccountId guestId? roomId? checkInDate?).isOk = true ∧
        (assertPositiveNumber amount?).isOk = true) →
      ∃ e, recordPaymentRoute store now guestId? roomId? checkInDate? amount? =
        ⟨[], [], .error (.validation e)⟩) ∧
    ((parseGuestStayAccountId guestId? roomId? checkInDate?).isOk = false →
      ∃ e, checkOutRoute store now guestId? roomId? checkInDate? =
        ⟨[], [], .error (.validation e)⟩) := by
  refine ⟨fun s => ?_, fun a => ?_, fun h => ?_, fun h => ?_, fun h => ?_,
    fun h => ?_⟩
  · by_cases hs : s = "" <;> simp [assertNotEmptyString, hs] <;> rfl
  · by_cases ha : 0 < a <;> simp [assertPositiveNumber, ha] <;> rfl
  · cases hg : assertNotEmptyString guestId? with
    | error e => exact ⟨e, by simp [checkInRoute, hg]⟩
    | ok g =>
      cases hr : assertNotEmptyString roomId? with
      | error e => exact ⟨e, by simp [checkInRoute, hg, hr]⟩
      | ok r => exact absurd ⟨by rw [hg]; rfl, by rw [hr]; rfl⟩ h
  · cases hp : parseGuestStayAccountId guestId? roomId? checkInDate? with
    | error e => exact ⟨e, by simp [recordChargeRoute, hp]⟩
    | ok aid =>
      cases ha : assertPositiveNumber amount? with
      | error e => exact ⟨e, by simp [recordChargeRoute, hp, ha]⟩
      | ok a => exact absurd ⟨by rw [hp]; rfl, by rw [ha]; rfl⟩ h
  · cases hp : parseGuestStayAccountId guestId? roomId? checkInDate? with
    | error e => exact ⟨e, by simp [recordPaymentRoute, hp]⟩
    | ok aid =>
      cases ha : assertPositiveNumber amount? with
      | error e => exact ⟨e, by simp [recordPaymentRoute, hp, ha]⟩
      | ok a => exact absurd ⟨by rw [hp]; rfl, by rw [ha]; rfl⟩ h
  · cases hp : parseGuestStayAccountId guestId? roomId? checkInDate? with
    | error e => exact ⟨e, by simp [checkOutRoute, hp]⟩
    | ok aid => rw [hp] at h; exact Bool.noConfusion h

/-- Witness for C8: an empty guest id and a zero amount are refused on all
four command routes before any handler runs. -/
theorem validation_precedes_command_handler_witness :
    (∃ e, checkInRoute (fun _ => []) (fun _ _ _ => true) 0
        (some "") (some "r") = ⟨[], [], .error (.validation e)⟩) ∧
    (∃ e, recordChargeRoute (fun _ => []) 0 (some "") (some "r")
        (some "1970-01-01") (some 0) = ⟨[], [], .error (.validation e)⟩) ∧
    (∃ e, recordPaymentRoute (fun _ => []) 0 (some "") (some "r")
        (some "1970-01-01") (some 0) = ⟨[], [], .error (.validation e)⟩) ∧
    (∃ e, checkOutRoute (fun _ => []) 0 (some "") (some "r")
        (some "1970-01-01") = ⟨[], [], .error (.validation e)⟩) :=
  have T := validation_precedes_command_handler (fun _ => [])
    (fun _ _ _ => true) 0 (some "") (some "r") (some "1970-01-01") (some 0)
  ⟨T.2.2.1 (by decide), T.2.2.2.1 (by decide), T.2.2.2.2.1 (by decide),
    T.2.2.2.2.2 (by decide)⟩

/-- C10: the GET details route answers `NotFound` both when the
aggregation result is null (no events in the stream) and when the rebuilt
state's status is not `'Opened'`; a checked-out account and an account
with no events produce the very same `NotFound` outcome, and a body is
only ever returned for an `Opened` state. -/
theorem getRoute_notFound_unless_opened
    (store : String → List GuestStayAccountEvent)
    (guestId? roomId? checkInDate? : Option String) (aid : String)
    (hid : parseGuestStayAccountId guestId? roomId? checkInDate? = .ok aid) :
    (store aid = [] →
      getRoute store guestId? roomId? checkInDate? = ⟨[], [], .ok .notFound⟩) ∧
    (statusOf (rebuildState (store aid)) ≠ some "Opened" →
      getRoute store guestId? roomId? checkInDate? = ⟨[], [], .ok .notFound⟩) ∧
    (rebuildState (store aid) = .checkedOut →
      getRoute store guestId? roomId? checkInDate? = ⟨[], [], .ok .notFound⟩) ∧
    (∀ b, store aid ≠ [] → rebuildState (store aid) = .opened b →
      getRoute store guestId? roomId? checkInDate? =
        ⟨[], [], .ok (.okBody (.opened b))⟩) := by
  have hstatus : statusOf (rebuildState (store aid)) ≠ some "Opened" →
      getRoute store guestId? roomId? checkInDate? = ⟨[], [], .ok .notFound⟩ := by
    intro h
    cases hstream : store aid with
    | nil => simp [getRoute, hid, aggregateStream, hstream]
    | cons x xs =>
      rw [hstream] at h
      simp [getRoute, hid, aggregateStream, hstream, h]
  refine ⟨fun h => ?_, hstatus, fun h => ?_, fun b hne hb => ?_⟩
  · simp [getRoute, hid, aggregateStream, h]
  · exact hstatus (by rw [h]; simp [statusOf])
  · cases hstream : store aid with
    | nil => exact absurd hstream hne
    | cons x xs =>
      rw [hstream] at hb
      simp [getRoute, hid, aggregateStream, hstream, hb, statusOf]

/-- Witness for C10: a checked-out stream is answered `NotFound`, exactly
like an empty one. -/
theorem getRoute_notFound_unless_opened_witness :
    (rebuildState ((fun _ => [GuestStayAccountEvent.guestCheckedIn "g" "r" 0,
        .guestCheckedOut "x" 1]) "guest_stay_account-g:r:1970-01-01") =
      .checkedOut) ∧
    getRoute (fun _ => [.guestCheckedIn "g" "r" 0, .guestCheckedOut "x" 1])
        (some "g") (some "r") (some "1970-01-01") =
      ⟨[], [], .ok .notFound⟩ :=
  ⟨by decide,
    (getRoute_notFound_unless_opened
        (fun _ => [.guestCheckedIn "g" "r" 0, .guestCheckedOut "x" 1])
        (some "g") (some "r") (some "1970-01-01")
        "guest_stay_account-g:r:1970-01-01" (by decide)).2.2.1 (by decide)⟩

end GuestStay
